import Mathlib

set_option maxHeartbeats 1000000

/-!
Verification development for the azurerm MySQL server resource and the Relay
identity parsing helpers.  The Go source under
`azurerm/internal/services/mysql/resource_arm_mysql_server.go` and
`azurerm/internal/services/relay/relay.go` is shallowly embedded below:
pure helper functions become Lean functions, the stateful Terraform
`ResourceData` store becomes an explicit record threaded through the
lifecycle functions, remote (Azure API) calls become explicit trace
parameters recording what the remote reported, Go `(T, error)` returns
become `Except`/`Option`, and a Go nil-pointer-dereference panic is
modelled by a dedicated `panicked` outcome (or `Option.none` for the pure
codec helpers).  Machine `int32` conversions are modelled by explicit
wrap-around arithmetic on `Int`.
-/

/-- Helper mirroring Go `strings.Split(s, sep)` for a one-character
separator, written by structural recursion over the character list so that
all proofs can evaluate it by kernel reduction. -/
def splitCharAux : List Char → Char → List Char → List String
  | [], _, acc => [String.mk acc.reverse]
  | c :: rest, sep, acc =>
    if c = sep then String.mk acc.reverse :: splitCharAux rest sep []
    else splitCharAux rest sep (c :: acc)

/-- Helper mirroring Go `strings.HasPrefix(s, pre)`: the pattern list is a
left factor of the subject list. -/
def listLeadsWith : List Char → List Char → Bool
  | [], _ => true
  | _ :: _, [] => false
  | p :: ps, c :: cs => p == c && listLeadsWith ps cs

/-- Go `strings.HasPrefix(s, pre)` on strings. -/
def strStartsWith (s pre : String) : Bool :=
  listLeadsWith pre.toList s.toList

/-- Go `strings.Split(s, sep)` for the one-character separators used by the
source (`"_"` and `"/"`).  Like Go's `Split`, the result always has one more
element than the number of separator occurrences, and empty parts are kept. -/
def stringsSplit (s : String) (sep : Char) : List String :=
  splitCharAux s.toList sep []

/-- Helper for `goAtoi`: value of a non-empty all-digit character list, or
`none` when any character is not a decimal digit. -/
def digitsVal (cs : List Char) : Option Nat :=
  cs.foldl
    (fun acc c =>
      match acc with
      | none => none
      | some n => if c.isDigit then some (n * 10 + (c.toNat - 48)) else none)
    (some 0)

/-- Go `strconv.Atoi`: optional sign, then one or more decimal digits; any
other shape is an error (`none`), as is a value outside the 64-bit `int`
range (Go reports `ErrRange` there, an error for the caller). -/
def goAtoi (s : String) : Option Int :=
  match s.toList with
  | [] => none
  | cs =>
    let signDigits : Bool × List Char :=
      match cs with
      | '-' :: rest => (true, rest)
      | '+' :: rest => (false, rest)
      | _ => (false, cs)
    match signDigits with
    | (neg, ds) =>
      if ds.isEmpty then none
      else
        match digitsVal ds with
        | none => none
        | some n =>
          let v : Int := if neg then -(n : Int) else (n : Int)
          if v < -(2 ^ 63) ∨ 2 ^ 63 - 1 < v then none else some v

/-- Go `int32(x)` conversion on a machine integer: wrap-around into the
interval [-2^31, 2^31). -/
def toInt32 (x : Int) : Int :=
  (x + 2 ^ 31) % 2 ^ 32 - 2 ^ 31

/-- Wire model of `mysql.Sku` (Go pointer fields become `Option`; the
`SkuTier` typed string stays a string, with values "Basic",
"GeneralPurpose", "MemoryOptimized" mirroring the SDK constants). -/
structure MySqlSku where
  Name : Option String
  Tier : String
  Capacity : Option Int
  Family : Option String
deriving Repr, DecidableEq

/-- Embedding of `expandServerSkuName` from
`resource_arm_mysql_server.go` lines 381-410: split the SKU string on "_",
require exactly three parts, map the first part through the closed tier
table (B / GP / MO), parse the last part as an integer capacity, and pass
the middle part through verbatim as the family. -/
def expandServerSkuName (skuName : String) : Except String MySqlSku :=
  match stringsSplit skuName '_' with
  | [p0, p1, p2] =>
    match
      (if p0 == "B" then some "Basic"
       else if p0 == "GP" then some "GeneralPurpose"
       else if p0 == "MO" then some "MemoryOptimized"
       else none) with
    | none => Except.error ("sku_name " ++ skuName ++ " has unknown sku tier " ++ p0)
    | some tier =>
      match goAtoi p2 with
      | none =>
        Except.error ("cannot convert skuname " ++ skuName ++ " capcity " ++ p2 ++ " to int")
      | some capacity =>
        Except.ok
          { Name := some skuName
            Tier := tier
            Capacity := some (toInt32 capacity)
            Family := some p1 }
  | _ =>
    Except.error ("sku_name " ++ skuName ++ " has the worng numberof parts after splitting on _")

/-- Declared-configuration shape of one `storage_profile` element, with the
concrete values `d.Get` returns for each sub-key (unset optional keys read
as the Go zero value). -/
structure StorageProfileConfig where
  storage_mb : Int
  backup_retention_days : Int
  geo_redundant_backup : String
  auto_grow : String
deriving Repr, DecidableEq

/-- Wire model of `mysql.StorageProfile` (pointer fields become `Option`;
the enum-typed string fields stay strings, absent JSON values decode to ""). -/
structure MySQLStorageProfile where
  BackupRetentionDays : Option Int
  GeoRedundantBackup : String
  StorageMB : Option Int
  StorageAutogrow : String
deriving Repr, DecidableEq

/-- Result shape of `flattenMySQLStorageProfile`: the Go function builds a
`map[string]interface{}` in which `storage_mb` and `backup_retention_days`
are inserted only when the corresponding wire pointer is non-nil, while the
two enum strings are always inserted; a missing key is `none` here. -/
structure FlatStorageProfile where
  storage_mb : Option Int
  backup_retention_days : Option Int
  geo_redundant_backup : String
  auto_grow : String
deriving Repr, DecidableEq

/-- Wire value of the SDK constant `mysql.PublicNetworkAccessEnumEnabled`. -/
def publicNetworkAccessEnumEnabled : String := "Enabled"

/-- Wire value of the SDK constant `mysql.PublicNetworkAccessEnumDisabled`. -/
def publicNetworkAccessEnumDisabled : String := "Disabled"

/-- Embedding of the Terraform attribute store for the
`azurerm_mysql_server` schema: one typed field per schema attribute, with
`storage_profile` kept as the list the schema declares (`MaxItems: 1`), and
`id` the locally recorded resource identity (`d.Id()` / `d.SetId`). -/
structure ResourceData where
  id : String
  name : String
  location : String
  resource_group_name : String
  sku_name : String
  administrator_login : String
  administrator_login_password : String
  version : String
  storage_profile : List StorageProfileConfig
  ssl_enforcement : String
  public_network_access_enabled : Bool
  fqdn : String
  tags : List (String × String)
deriving Repr, DecidableEq

/-- Embedding of `expandMySQLStorageProfile` (lines 412-427): read the
`storage_profile` list from the store and index element 0 — indexing an
empty list panics in Go, modelled here by `none` — then copy the four
sub-fields into the wire structure with `int32` coercions. -/
def expandMySQLStorageProfile (d : ResourceData) : Option MySQLStorageProfile :=
  match d.storage_profile with
  | [] => none
  | storageprofile :: _ =>
    some
      { BackupRetentionDays := some (toInt32 storageprofile.backup_retention_days)
        GeoRedundantBackup := storageprofile.geo_redundant_backup
        StorageMB := some (toInt32 storageprofile.storage_mb)
        StorageAutogrow := storageprofile.auto_grow }

/-- Embedding of `flattenMySQLStorageProfile` (lines 429-445): the argument
is the Go `*mysql.StorageProfile`; a nil argument (`none`) makes the Go
function dereference a nil pointer and panic, modelled by `none` in the
result.  For a non-nil argument the function always returns a one-element
list; `storage_mb` and `backup_retention_days` are inserted only when their
wire pointers are non-nil, while the two enum strings are read
unconditionally. -/
def flattenMySQLStorageProfile (resp : Option MySQLStorageProfile) :
    Option (List FlatStorageProfile) :=
  match resp with
  | none => none
  | some r =>
    some
      [{ storage_mb := r.StorageMB
         backup_retention_days := r.BackupRetentionDays
         geo_redundant_backup := r.GeoRedundantBackup
         auto_grow := r.StorageAutogrow }]

/-- Embedding of the `CustomizeDiff` cross-field validator (lines 169-178):
a pure function of the proposed `sku_name` and `storage_profile.0.storage_mb`
values only — it makes no remote call and reads no remote state — rejecting
a Basic-tier SKU (prefix "B_") combined with more than 1,048,576 MB of
storage. -/
def customizeDiffMySqlServer (sku_name : String) (storage_mb : Int) :
    Except String Unit :=
  if strStartsWith sku_name "B_" = true ∧ 1048576 < storage_mb then
    Except.error "basic pricing tier only supports upto 1,048,576 MB (1TB) of storage"
  else Except.ok ()

/-- Error kind of the identity codec.  Modelled from the spec: the spec's
section on the Identity Codec lists the error conditions — malformed path
(missing resource-group marker or un-pairable components), missing required
segment, empty segment value, and non-empty remainder ("dangling segment",
surfaced distinctly from a missing segment) — all reported as a single
ParseError kind carrying the offending input and cause. -/
inductive IdParseError where
  | malformedPath (input : String) (cause : String)
  | emptySegment (input : String)
  | missingResourceGroup (input : String)
  | missingSegment (key : String)
  | danglingSegments (input : String) (remainder : List (String × String))
deriving Repr, DecidableEq

/-- Typed hierarchical identity produced by the identity codec: the
resource-group scoping field plus the ordered named (segment-type,
segment-name) pairs that remain to be consumed. -/
structure ResourceID where
  ResourceGroup : String
  Path : List (String × String)
deriving Repr, DecidableEq

/-- Helper pairing up the path components two by two; an odd component
count has no pairing (`none`). -/
def pairUp : List String → Option (List (String × String))
  | [] => some []
  | [_] => none
  | k :: v :: rest => (pairUp rest).map (fun ps => (k, v) :: ps)

/-- Helper trimming one leading and one trailing "/" from the path, as the
resource-ID grammar writes the path with a leading slash. -/
def trimSlash (s : String) : String :=
  let cs := s.toList
  let cs1 := match cs with
    | '/' :: rest => rest
    | _ => cs
  String.mk (match cs1.reverse with
    | '/' :: rest => rest.reverse
    | _ => cs1)

/-- Modelled from the spec: `azure.ParseAzureResourceID` lives in
`azurerm/helpers/azure`, which is repository code not under `src/`.  Per the
spec it splits the input into a resource-group component and an ordered set
of named (type, name) segment pairs, failing on a malformed path (odd
component count), on an empty segment type or value, and on a missing
resource-group marker; the scoping markers of the remote ID grammar
(subscription, provider, resource group) are extracted and the remaining
pairs form the ordered segment list. -/
def ParseAzureResourceID (input : String) : Except IdParseError ResourceID :=
  let comps := stringsSplit (trimSlash input) '/'
  match pairUp comps with
  | none =>
    Except.error (IdParseError.malformedPath input "the number of path segments is not divisible by 2")
  | some pairs =>
    if pairs.any (fun p => p.1 == "" || p.2 == "") then
      Except.error (IdParseError.emptySegment input)
    else
      match (pairs.filter (fun p => p.1 == "resourceGroups")).head? with
      | none => Except.error (IdParseError.missingResourceGroup input)
      | some rg =>
        Except.ok
          { ResourceGroup := rg.2
            Path := pairs.filter
              (fun p => !(p.1 == "resourceGroups") && !(p.1 == "subscriptions") && !(p.1 == "providers")) }

/-- Helper removing the first segment whose type matches `key` from the
ordered segment list, returning its name and the remaining segments. -/
def popOne : List (String × String) → String → Option (String × List (String × String))
  | [], _ => none
  | p :: rest, key =>
    if p.1 == key then some (p.2, rest)
    else
      match popOne rest key with
      | none => none
      | some (v, rest2) => some (v, p :: rest2)

/-- Modelled from the spec: `ResourceID.PopSegment` (also in
`azurerm/helpers/azure`, not under `src/`).  Per the spec, each named
segment type is looked up and removed from the remaining path exactly once;
requesting a segment type not present is a parse error, never a default. -/
def PopSegment (id : ResourceID) (key : String) :
    Except IdParseError (String × ResourceID) :=
  match popOne id.Path key with
  | none => Except.error (IdParseError.missingSegment key)
  | some (v, rest) => Except.ok (v, { id with Path := rest })

/-- Modelled from the spec: `ResourceID.ValidateNoEmptySegments` (also in
`azurerm/helpers/azure`, not under `src/`).  Per the spec, after all
expected segments are popped the remainder must be empty; a non-empty
remainder is a validation error surfaced distinctly from a missing
segment. -/
def ValidateNoEmptySegments (id : ResourceID) (input : String) :
    Except IdParseError Unit :=
  if id.Path.isEmpty then Except.ok ()
  else Except.error (IdParseError.danglingSegments input id.Path)

/-- Go map access `id.Path[key]` with the zero-value default "" used by the
MySQL read/delete paths (`name := id.Path["servers"]`). -/
def pathLookup (id : ResourceID) (key : String) : String :=
  (((id.Path.filter (fun p => p.1 == key)).head?).map Prod.snd).getD ""

/-- Identity record produced by `ParseHybridConnectionID`
(`relay.go` lines 9-13). -/
structure HybridConnectionResourceID where
  ResourceGroup : String
  Name : String
  NamespaceName : String
deriving Repr, DecidableEq

/-- Identity record produced by `ParseNamespaceID` (`relay.go` lines 15-18). -/
structure NamespaceResourceID where
  ResourceGroup : String
  Name : String
deriving Repr, DecidableEq

/-- Embedding of `ParseHybridConnectionID` (`relay.go` lines 20-42): parse
the raw ID, pop the "hybridConnections" segment, then the "namespaces"
segment, then require an empty remainder; every error path returns the
error and no identity (the Go function returns nil on every error path;
the Go wrapper re-words the parse error message, which does not change the
error's kind). -/
def ParseHybridConnectionID (input : String) :
    Except IdParseError HybridConnectionResourceID :=
  match ParseAzureResourceID input with
  | Except.error e => Except.error e
  | Except.ok id =>
    match PopSegment id "hybridConnections" with
    | Except.error e => Except.error e
    | Except.ok (name, id1) =>
      match PopSegment id1 "namespaces" with
      | Except.error e => Except.error e
      | Except.ok (namespaceName, id2) =>
        match ValidateNoEmptySegments id2 input with
        | Except.error e => Except.error e
        | Except.ok _ =>
          Except.ok
            { ResourceGroup := id.ResourceGroup
              Name := name
              NamespaceName := namespaceName }

/-- Embedding of `ParseNamespaceID` (`relay.go` lines 44-62): parse the raw
ID, pop the "namespaces" segment, then require an empty remainder. -/
def ParseNamespaceID (input : String) :
    Except IdParseError NamespaceResourceID :=
  match ParseAzureResourceID input with
  | Except.error e => Except.error e
  | Except.ok id =>
    match PopSegment id "namespaces" with
    | Except.error e => Except.error e
    | Except.ok (name, id1) =>
      match ValidateNoEmptySegments id1 input with
      | Except.error e => Except.error e
      | Except.ok _ =>
        Except.ok { ResourceGroup := id.ResourceGroup, Name := name }

/-- Wire model of the SDK `mysql.Server` response body (Go pointer fields
become `Option`; typed-string enum fields stay strings and decode to ""
when absent from the JSON). -/
structure MySqlServer where
  ID : Option String
  Name : Option String
  Location : Option String
  Sku : Option MySqlSku
  AdministratorLogin : Option String
  Version : String
  SslEnforcement : String
  PublicNetworkAccess : String
  StorageProfile : Option MySQLStorageProfile
  FullyQualifiedDomainName : Option String
  Tags : List (String × String)
deriving Repr, DecidableEq

/-- Observable result of one remote `client.Get` call: whether the call
returned a Go error, whether `utils.ResponseWasNotFound` holds of its HTTP
response, and the (zero-valued on failure) decoded body. -/
structure GetResult where
  err : Bool
  notFound : Bool
  server : MySqlServer
deriving Repr, DecidableEq

/-- Error kinds of the MySQL server lifecycle functions, one constructor
per distinct `return fmt.Errorf`/`return err` site (the Go code returns a
plain error value; the distinct constructors record which return site
produced it). -/
inductive MySqlErr where
  | parseId (e : IdParseError)
  | checkingExisting
  | importAsExists (id : String)
  | skuExpand (msg : String)
  | creating
  | waiting
  | retrieving
  | cannotReadID
  | readRequest
  | deleting
  | deleteWaiting
deriving Repr, DecidableEq

/-- Outcome of one lifecycle call: normal return `nil` with the final
attribute store, an error return with the attribute store as the function
left it, or a Go runtime panic (nil-pointer dereference / out-of-range
index), which crashes before any value is returned. -/
inductive LifecycleOutcome where
  | ok (d : ResourceData)
  | err (e : MySqlErr) (d : ResourceData)
  | panicked
deriving Repr, DecidableEq

/-- Modelled from the spec: `azure.NormalizeLocation` is in
`azurerm/helpers/azure`, not under `src/`, and the spec does not specify
it; it is modelled as the case/whitespace normalization of a location
string.  No claim depends on its exact behaviour. -/
def NormalizeLocation (s : String) : String :=
  String.mk ((s.toList.filter (fun c => !(c == ' '))).map Char.toLower)

/-- Terraform `d.Set("storage_profile", values)` semantics for one
flattened element: a key absent from the map reads back as the schema zero
value (0 for the integer sub-fields). -/
def flatToConfig (f : FlatStorageProfile) : StorageProfileConfig :=
  { storage_mb := f.storage_mb.getD 0
    backup_retention_days := f.backup_retention_days.getD 0
    geo_redundant_backup := f.geo_redundant_backup
    auto_grow := f.auto_grow }

/-- Embedding of `resourceArmMySqlServerRead` (lines 309-355), with the one
remote `client.Get` call supplied as the trace parameter `g`: parse the
locally stored ID (an error is returned unchanged); on a remote error that
was a not-found response, clear the local identity and return success; on
any other remote error, return an error with the store untouched; on
success, set every schema attribute from the response — including the
remote-computed `fqdn` — passing `resp.StorageProfile` to
`flattenMySQLStorageProfile` without a nil check, so an absent storage
profile panics. -/
def resourceArmMySqlServerRead (g : GetResult) (d : ResourceData) : LifecycleOutcome :=
  match ParseAzureResourceID d.id with
  | Except.error e => LifecycleOutcome.err (MySqlErr.parseId e) d
  | Except.ok id =>
    let resourceGroup := id.ResourceGroup
    if g.err then
      if g.notFound then LifecycleOutcome.ok { d with id := "" }
      else LifecycleOutcome.err MySqlErr.readRequest d
    else
      let resp := g.server
      match flattenMySQLStorageProfile resp.StorageProfile with
      | none => LifecycleOutcome.panicked
      | some profile =>
        LifecycleOutcome.ok
          { d with
            name := resp.Name.getD ""
            resource_group_name := resourceGroup
            location :=
              match resp.Location with
              | some l => NormalizeLocation l
              | none => d.location
            sku_name :=
              match resp.Sku with
              | some sku => sku.Name.getD ""
              | none => d.sku_name
            administrator_login := resp.AdministratorLogin.getD ""
            version := resp.Version
            ssl_enforcement := resp.SslEnforcement
            public_network_access_enabled :=
              !(resp.PublicNetworkAccess == publicNetworkAccessEnumDisabled)
            storage_profile := profile.map flatToConfig
            fqdn := resp.FullyQualifiedDomainName.getD ""
            tags := resp.Tags }

/-- Observable results of the remote calls issued by
`resourceArmMySqlServerDelete`: whether `client.Delete` returned an error,
whether that error's HTTP response was a not-found response (information
the Go code never inspects), and whether polling the returned future
failed. -/
structure DeleteRemote where
  deleteErr : Bool
  deleteNotFound : Bool
  waitErr : Bool
deriving Repr, DecidableEq

/-- Embedding of `resourceArmMySqlServerDelete` (lines 357-379): parse the
locally stored ID, submit the delete, poll it, and return success; every
error reported by `client.Delete` — the `deleteNotFound` flag included — is
wrapped and returned, with no not-found special case anywhere in the
function. -/
def resourceArmMySqlServerDelete (r : DeleteRemote) (d : ResourceData) : LifecycleOutcome :=
  match ParseAzureResourceID d.id with
  | Except.error e => LifecycleOutcome.err (MySqlErr.parseId e) d
  | Except.ok _id =>
    if r.deleteErr then LifecycleOutcome.err MySqlErr.deleting d
    else if r.waitErr then LifecycleOutcome.err MySqlErr.deleteWaiting d
    else LifecycleOutcome.ok d

/-- Wire model of `mysql.ServerPropertiesForDefaultCreate` as built by
`resourceArmMySqlServerCreate` lines 218-226. -/
structure ServerPropertiesForDefaultCreate where
  AdministratorLogin : Option String
  AdministratorLoginPassword : Option String
  Version : String
  SslEnforcement : String
  StorageProfile : Option MySQLStorageProfile
  CreateMode : String
  PublicNetworkAccess : String
deriving Repr, DecidableEq

/-- Wire model of `mysql.ServerForCreate` as built by
`resourceArmMySqlServerCreate` lines 216-229. -/
structure ServerForCreate where
  Location : Option String
  Properties : ServerPropertiesForDefaultCreate
  Sku : Option MySqlSku
  Tags : List (String × String)
deriving Repr, DecidableEq

/-- Observable results of the remote calls issued by
`resourceArmMySqlServerCreate`, in program order: the import-check
`client.Get`, the `client.Create` submission, the polling of its future,
the re-read `client.Get`, and the `client.Get` performed by the trailing
`resourceArmMySqlServerRead` call. -/
structure CreateRemote where
  firstGet : GetResult
  createErr : Bool
  waitErr : Bool
  rereadGet : GetResult
  readGet : GetResult
deriving Repr, DecidableEq

/-- Result of one Create call: the lifecycle outcome plus the wire payload
handed to `client.Create` (`none` when the function returned before
submitting a create call). -/
structure CreateResult where
  outcome : LifecycleOutcome
  submitted : Option ServerForCreate
deriving Repr, DecidableEq

/-- Embedding of `resourceArmMySqlServerCreate` (lines 182-252), with
`shouldImport` standing for `features.ShouldResourcesBeImported()` and
`isNew` for `d.IsNewResource()`.  In program order: compute the
public-network-access enum from the declared boolean; when import checking
is enabled, Get the declared identity and fail with a distinct error on a
non-not-found Get failure or on an existing (non-nil, non-empty) remote ID,
both before any create submission; expand the SKU string (failure returns
before submission); build the wire payload (the storage-profile expansion
panics on an empty declared list); submit; poll; re-read; require a
non-nil re-read ID; only then record the identity (`d.SetId`) and finish by
calling `resourceArmMySqlServerRead`. -/
def resourceArmMySqlServerCreate (shouldImport isNew : Bool) (r : CreateRemote)
    (d : ResourceData) : CreateResult :=
  let publicAccess :=
    if d.public_network_access_enabled then publicNetworkAccessEnumEnabled
    else publicNetworkAccessEnumDisabled
  if shouldImport && isNew && r.firstGet.err && !r.firstGet.notFound then
    { outcome := LifecycleOutcome.err MySqlErr.checkingExisting d, submitted := none }
  else if shouldImport && isNew && !(r.firstGet.server.ID.getD "" == "") then
    { outcome := LifecycleOutcome.err (MySqlErr.importAsExists (r.firstGet.server.ID.getD "")) d
      submitted := none }
  else
    match expandServerSkuName d.sku_name with
    | Except.error m =>
      { outcome := LifecycleOutcome.err (MySqlErr.skuExpand m) d, submitted := none }
    | Except.ok sku =>
      match expandMySQLStorageProfile d with
      | none => { outcome := LifecycleOutcome.panicked, submitted := none }
      | some storageProfile =>
        let properties : ServerForCreate :=
          { Location := some (NormalizeLocation d.location)
            Properties :=
              { AdministratorLogin := some d.administrator_login
                AdministratorLoginPassword := some d.administrator_login_password
                Version := d.version
                SslEnforcement := d.ssl_enforcement
                StorageProfile := some storageProfile
                CreateMode := "Default"
                PublicNetworkAccess := publicAccess }
            Sku := some sku
            Tags := d.tags }
        if r.createErr then
          { outcome := LifecycleOutcome.err MySqlErr.creating d, submitted := some properties }
        else if r.waitErr then
          { outcome := LifecycleOutcome.err MySqlErr.waiting d, submitted := some properties }
        else if r.rereadGet.err then
          { outcome := LifecycleOutcome.err MySqlErr.retrieving d, submitted := some properties }
        else
          match r.rereadGet.server.ID with
          | none =>
            { outcome := LifecycleOutcome.err MySqlErr.cannotReadID d
              submitted := some properties }
          | some i =>
            { outcome := resourceArmMySqlServerRead r.readGet { d with id := i }
              submitted := some properties }

/-- Helper lowering every character of a string, used to express the
schema's case-insensitive enum validation (`StringInSlice(..., true)`). -/
def lowerStr (s : String) : String :=
  String.mk (s.toList.map Char.toLower)

/-- Acceptance by the declared-configuration validation of one
`storage_profile` element, from the schema (lines 104-143): `storage_mb`
between 5120 and 4194304 and divisible by 1024; `backup_retention_days`
between 7 and 35 when set (an unset optional integer reads as 0);
`geo_redundant_backup` case-insensitively "Enabled"/"Disabled" when set (""
when unset); `auto_grow` exactly "Enabled" or "Disabled" (defaulted to
"Enabled"). -/
def storageProfileSchemaValid (sp : StorageProfileConfig) : Prop :=
  5120 ≤ sp.storage_mb ∧ sp.storage_mb ≤ 4194304 ∧ sp.storage_mb % 1024 = 0 ∧
  (sp.backup_retention_days = 0 ∨ (7 ≤ sp.backup_retention_days ∧ sp.backup_retention_days ≤ 35)) ∧
  lowerStr sp.geo_redundant_backup ∈ ["enabled", "disabled", ""] ∧
  sp.auto_grow ∈ ["Enabled", "Disabled"]

instance (sp : StorageProfileConfig) : Decidable (storageProfileSchemaValid sp) := by
  unfold storageProfileSchemaValid
  infer_instance

/-- Concrete schema-valid storage profile used by the witnesses. -/
def spExample : StorageProfileConfig :=
  { storage_mb := 5120
    backup_retention_days := 7
    geo_redundant_backup := "Enabled"
    auto_grow := "Enabled" }

/-- Concrete declared configuration with a valid stored identity, used by
the witnesses. -/
def dExample : ResourceData :=
  { id := "/subscriptions/12345/resourceGroups/group1/providers/Microsoft.DBforMySQL/servers/server1"
    name := "server1"
    location := "westeurope"
    resource_group_name := "group1"
    sku_name := "GP_Gen5_4"
    administrator_login := "adminuser"
    administrator_login_password := "secretvalue"
    version := "5.7"
    storage_profile := [spExample]
    ssl_enforcement := "Enabled"
    public_network_access_enabled := true
    fqdn := ""
    tags := [] }

/-- Concrete wire response body used by the witnesses. -/
def serverExample : MySqlServer :=
  { ID := some dExample.id
    Name := some "server1"
    Location := some "westeurope"
    Sku := some { Name := some "GP_Gen5_4", Tier := "GeneralPurpose", Capacity := some 4, Family := some "Gen5" }
    AdministratorLogin := some "adminuser"
    Version := "5.7"
    SslEnforcement := "Enabled"
    PublicNetworkAccess := "Enabled"
    StorageProfile := some
      { BackupRetentionDays := some 7
        GeoRedundantBackup := "Enabled"
        StorageMB := some 5120
        StorageAutogrow := "Enabled" }
    FullyQualifiedDomainName := some "server1.mysql.database.azure.com"
    Tags := [] }

/-- Concrete zero-valued wire body, as the Go SDK leaves the struct when
the call fails or the field is absent. -/
def serverZero : MySqlServer :=
  { ID := none
    Name := none
    Location := none
    Sku := none
    AdministratorLogin := none
    Version := ""
    SslEnforcement := ""
    PublicNetworkAccess := ""
    StorageProfile := none
    FullyQualifiedDomainName := none
    Tags := [] }

/-- Helper: the `int32` wrap is the identity on values already inside the
32-bit range. -/
theorem toInt32_eq_self (x : Int) (h1 : -2147483648 ≤ x) (h2 : x ≤ 2147483647) :
    toInt32 x = x := by
  unfold toInt32
  omega

/-- C1: for every storage_profile group accepted by the declared-schema
validation, decoding the encoded wire payload yields a single-element list
whose storage_mb, backup_retention_days, geo_redundant_backup and auto_grow
equal the declared values (the administrator_login_password is a write-only
secret that never enters the storage-profile wire shape, and the
case-insensitive enum strings are passed through verbatim by this codec
pair). -/
theorem mysql_storage_profile_roundtrip (d : ResourceData) (sp : StorageProfileConfig)
    (hsp : d.storage_profile = [sp]) (hv : storageProfileSchemaValid sp) :
    flattenMySQLStorageProfile (expandMySQLStorageProfile d) =
      some [{ storage_mb := some sp.storage_mb
              backup_retention_days := some sp.backup_retention_days
              geo_redundant_backup := sp.geo_redundant_backup
              auto_grow := sp.auto_grow }] := by
  obtain ⟨h1, h2, h3, h4, h5, h6⟩ := hv
  simp only [expandMySQLStorageProfile, hsp, flattenMySQLStorageProfile]
  rw [toInt32_eq_self sp.storage_mb (by omega) (by omega),
      toInt32_eq_self sp.backup_retention_days (by omega) (by omega)]

/-- Witness for C1 at a concrete schema-valid configuration. -/
theorem mysql_storage_profile_roundtrip_witness :
    dExample.storage_profile = [spExample] ∧ storageProfileSchemaValid spExample ∧
    flattenMySQLStorageProfile (expandMySQLStorageProfile dExample) =
      some [{ storage_mb := some spExample.storage_mb
              backup_retention_days := some spExample.backup_retention_days
              geo_redundant_backup := spExample.geo_redundant_backup
              auto_grow := spExample.auto_grow }] :=
  ⟨rfl, by decide, mysql_storage_profile_roundtrip dExample spExample rfl (by decide)⟩

/-- C2: the SKU decomposition — "GP_Gen5_4" gives tier GeneralPurpose,
family "Gen5", capacity 4; "B_Gen4_1" gives tier Basic, family "Gen4",
capacity 1; a part count other than three is an error (e.g. "GP_4"); a
first part outside the closed tier table is an error (e.g. "XX_Gen5_4"); a
non-integer last part is an error; the middle part is passed through
verbatim as the family. -/
theorem expandServerSkuName_spec :
    expandServerSkuName "GP_Gen5_4" =
      Except.ok { Name := some "GP_Gen5_4", Tier := "GeneralPurpose",
                  Capacity := some 4, Family := some "Gen5" } ∧
    expandServerSkuName "B_Gen4_1" =
      Except.ok { Name := some "B_Gen4_1", Tier := "Basic",
                  Capacity := some 1, Family := some "Gen4" } ∧
    (expandServerSkuName "GP_4").isOk = false ∧
    (expandServerSkuName "XX_Gen5_4").isOk = false ∧
    (∀ s, (stringsSplit s '_').length ≠ 3 → (expandServerSkuName s).isOk = false) ∧
    (∀ s p0 p1 p2, stringsSplit s '_' = [p0, p1, p2] →
      p0 ≠ "B" → p0 ≠ "GP" → p0 ≠ "MO" → (expandServerSkuName s).isOk = false) ∧
    (∀ s p0 p1 p2, stringsSplit s '_' = [p0, p1, p2] →
      goAtoi p2 = none → (expandServerSkuName s).isOk = false) ∧
    (∀ s p0 p1 p2 sku, stringsSplit s '_' = [p0, p1, p2] →
      expandServerSkuName s = Except.ok sku → sku.Family = some p1) := by
  refine ⟨rfl, rfl, by decide, by decide, ?_, ?_, ?_, ?_⟩
  · intro s h
    unfold expandServerSkuName
    rcases hs : stringsSplit s '_' with _ | ⟨a, _ | ⟨b, _ | ⟨c, _ | ⟨e, t⟩⟩⟩⟩ <;>
      simp [hs, Except.isOk, Except.toBool] at h ⊢
  · intro s p0 p1 p2 hs h1 h2 h3
    have e1 : (p0 == "B") = false := by
      cases H : p0 == "B"
      · rfl
      · exact absurd (eq_of_beq H) h1
    have e2 : (p0 == "GP") = false := by
      cases H : p0 == "GP"
      · rfl
      · exact absurd (eq_of_beq H) h2
    have e3 : (p0 == "MO") = false := by
      cases H : p0 == "MO"
      · rfl
      · exact absurd (eq_of_beq H) h3
    simp [expandServerSkuName, hs, e1, e2, e3, Except.isOk, Except.toBool]
  · intro s p0 p1 p2 hs hatoi
    simp only [expandServerSkuName, hs]
    split
    · rfl
    · simp [hatoi, Except.isOk, Except.toBool]
  · intro s p0 p1 p2 sku hs hok
    simp only [expandServerSkuName, hs] at hok
    split at hok
    · cases hok
    · split at hok
      · cases hok
      · cases hok
        rfl

/-- Witness for C2's conditional parts at the concrete inputs named by the
spec. -/
theorem expandServerSkuName_spec_witness :
    ((stringsSplit "GP_4" '_').length ≠ 3 ∧ (expandServerSkuName "GP_4").isOk = false) ∧
    (stringsSplit "XX_Gen5_4" '_' = ["XX", "Gen5", "4"] ∧
      (expandServerSkuName "XX_Gen5_4").isOk = false) ∧
    (stringsSplit "GP_Gen5_x" '_' = ["GP", "Gen5", "x"] ∧ goAtoi "x" = none ∧
      (expandServerSkuName "GP_Gen5_x").isOk = false) :=
  ⟨⟨by decide, expandServerSkuName_spec.2.2.2.2.1 "GP_4" (by decide)⟩,
   ⟨by decide, expandServerSkuName_spec.2.2.2.2.2.1 "XX_Gen5_4" "XX" "Gen5" "4" (by decide)
      (by decide) (by decide) (by decide)⟩,
   ⟨by decide, rfl,
    expandServerSkuName_spec.2.2.2.2.2.2.1 "GP_Gen5_x" "GP" "Gen5" "x" (by decide) rfl⟩⟩

/-- Helper: a string leading with "GP" cannot lead with "B_". -/
theorem startsWith_GP_not_B (sku : String) (h : strStartsWith sku "GP" = true) :
    strStartsWith sku "B_" = false := by
  unfold strStartsWith at h ⊢
  have hgp : "GP".toList = ['G', 'P'] := rfl
  have hb : "B_".toList = ['B', '_'] := rfl
  rw [hgp] at h
  rw [hb]
  cases hcs : sku.toList with
  | nil => rw [hcs] at h; exact absurd h (by decide)
  | cons c cs =>
    rw [hcs] at h
    simp only [listLeadsWith, Bool.and_eq_true] at h
    obtain ⟨hc, _⟩ := h
    have hc2 : c = 'G' := (eq_of_beq hc).symm
    subst hc2
    simp [listLeadsWith]

/-- C7: the cross-field validator — a pure function of the proposed
sku_name and storage_mb only — rejects every configuration whose SKU has
the Basic tier prefix with storage over 1,048,576 MB, and accepts any
storage size under a GeneralPurpose-prefixed SKU. -/
theorem customizeDiff_basic_storage_cap :
    (∀ sku mb, strStartsWith sku "B_" = true → 1048576 < mb →
      (customizeDiffMySqlServer sku mb).isOk = false) ∧
    (∀ sku mb, strStartsWith sku "GP" = true →
      (customizeDiffMySqlServer sku mb).isOk = true) := by
  constructor
  · intro sku mb h1 h2
    simp [customizeDiffMySqlServer, h1, h2, Except.isOk, Except.toBool]
  · intro sku mb h1
    simp [customizeDiffMySqlServer, startsWith_GP_not_B sku h1, Except.isOk, Except.toBool]

/-- Witness for C7 at the boundary storage size 1,048,577 MB under both
tiers. -/
theorem customizeDiff_basic_storage_cap_witness :
    (strStartsWith "B_Gen4_1" "B_" = true ∧ (1048576 : Int) < 1048577 ∧
      (customizeDiffMySqlServer "B_Gen4_1" 1048577).isOk = false) ∧
    (strStartsWith "GP_Gen5_4" "GP" = true ∧
      (customizeDiffMySqlServer "GP_Gen5_4" 1048577).isOk = true) :=
  ⟨⟨by decide, by decide,
    customizeDiff_basic_storage_cap.1 "B_Gen4_1" 1048577 (by decide) (by decide)⟩,
   ⟨by decide, customizeDiff_basic_storage_cap.2 "GP_Gen5_4" 1048577 (by decide)⟩⟩

/-- C8: identity parsing pops the expected named segment types from the
remaining path exactly once and in order — for a hybrid connection the
"hybridConnections" segment and then the "namespaces" segment; a requested
segment type absent from the path is a parse error; after all expected
segments are popped, a non-empty remainder is an error distinct from a
missing segment; every error path returns the error and no identity. -/
theorem relay_parse_segment_popping :
    ParseHybridConnectionID "/subscriptions/sub1/resourceGroups/group1/providers/Microsoft.Relay/namespaces/ns1/hybridConnections/hc1" =
      Except.ok { ResourceGroup := "group1", Name := "hc1", NamespaceName := "ns1" } ∧
    ParseHybridConnectionID "/subscriptions/sub1/resourceGroups/group1/providers/Microsoft.Relay/namespaces/ns1" =
      Except.error (IdParseError.missingSegment "hybridConnections") ∧
    ParseHybridConnectionID "/subscriptions/sub1/resourceGroups/group1/providers/Microsoft.Relay/hybridConnections/hc1" =
      Except.error (IdParseError.missingSegment "namespaces") ∧
    ParseHybridConnectionID "/subscriptions/sub1/resourceGroups/group1/providers/Microsoft.Relay" =
      Except.error (IdParseError.missingSegment "hybridConnections") ∧
    ParseHybridConnectionID "/subscriptions/sub1/resourceGroups/group1/providers/Microsoft.Relay/namespaces/ns1/hybridConnections/hc1/extra/x" =
      Except.error (IdParseError.danglingSegments
        "/subscriptions/sub1/resourceGroups/group1/providers/Microsoft.Relay/namespaces/ns1/hybridConnections/hc1/extra/x"
        [("extra", "x")]) ∧
    ParseNamespaceID "/subscriptions/sub1/resourceGroups/group1/providers/Microsoft.Relay/namespaces/ns1" =
      Except.ok { ResourceGroup := "group1", Name := "ns1" } ∧
    ParseNamespaceID "/subscriptions/sub1/resourceGroups/group1/providers/Microsoft.Relay/namespaces/ns1/hybridConnections/hc1" =
      Except.error (IdParseError.danglingSegments
        "/subscriptions/sub1/resourceGroups/group1/providers/Microsoft.Relay/namespaces/ns1/hybridConnections/hc1"
        [("hybridConnections", "hc1")]) ∧
    (∀ key input remainder,
      IdParseError.missingSegment key ≠ IdParseError.danglingSegments input remainder) :=
  ⟨rfl, rfl, rfl, rfl, rfl, rfl, rfl, by intro key input remainder h; cases h⟩

/-- C3 counterexample: when the remote delete call reports the resource as
not found (the submission returns an error whose response is a not-found
response), Delete returns an error rather than success — the claimed
not-found-is-success treatment does not exist in this function. -/
theorem delete_remote_notfound_errors :
    resourceArmMySqlServerDelete
        { deleteErr := true, deleteNotFound := true, waitErr := false } dExample =
      LifecycleOutcome.err MySqlErr.deleting dExample ∧
    LifecycleOutcome.err MySqlErr.deleting dExample ≠ LifecycleOutcome.ok dExample :=
  ⟨rfl, by intro h; cases h⟩

/-- C3 amended: Delete never inspects whether a failure was a not-found
response — its outcome is unchanged by that flag — every failure reported
by the delete submission or its polling is surfaced as an error, and
success is returned exactly when both report success. -/
theorem delete_surfaces_all_failures (r : DeleteRemote) (d : ResourceData)
    (hid : (ParseAzureResourceID d.id).isOk = true) :
    (resourceArmMySqlServerDelete r d = LifecycleOutcome.ok d ↔
      r.deleteErr = false ∧ r.waitErr = false) ∧
    (∀ b, resourceArmMySqlServerDelete
        { deleteErr := r.deleteErr, deleteNotFound := b, waitErr := r.waitErr } d =
      resourceArmMySqlServerDelete r d) := by
  rcases hp : ParseAzureResourceID d.id with e | id
  · rw [hp] at hid
    simp [Except.isOk, Except.toBool] at hid
  · unfold resourceArmMySqlServerDelete
    rw [hp]
    constructor
    · cases hde : r.deleteErr <;> cases hw : r.waitErr <;> simp
    · intro b
      rfl

/-- Witness for the amended C3 at a concrete successful trace. -/
theorem delete_surfaces_all_failures_witness :
    (resourceArmMySqlServerDelete
        { deleteErr := false, deleteNotFound := false, waitErr := false } dExample =
          LifecycleOutcome.ok dExample ↔
      ({ deleteErr := false, deleteNotFound := false, waitErr := false } : DeleteRemote).deleteErr = false ∧
      ({ deleteErr := false, deleteNotFound := false, waitErr := false } : DeleteRemote).waitErr = false) ∧
    (∀ b, resourceArmMySqlServerDelete
        { deleteErr := false, deleteNotFound := b, waitErr := false } dExample =
      resourceArmMySqlServerDelete
        { deleteErr := false, deleteNotFound := false, waitErr := false } dExample) :=
  delete_surfaces_all_failures
    { deleteErr := false, deleteNotFound := false, waitErr := false } dExample (by decide)

/-- C6: Read treats a remote not-found as success with the local identity
cleared; every other remote failure is an error with the local store — the
identity included — left unchanged; on success Read decodes the canonical
remote state including the remote-computed fqdn endpoint, which the encode
direction never writes. -/
theorem read_notfound_is_absent (g : GetResult) (d : ResourceData)
    (hid : (ParseAzureResourceID d.id).isOk = true) :
    (g.err = true → g.notFound = true →
      resourceArmMySqlServerRead g d = LifecycleOutcome.ok { d with id := "" }) ∧
    (g.err = true → g.notFound = false →
      resourceArmMySqlServerRead g d = LifecycleOutcome.err MySqlErr.readRequest d) ∧
    (∀ p, g.err = false → g.server.StorageProfile = some p →
      ∃ d2, resourceArmMySqlServerRead g d = LifecycleOutcome.ok d2 ∧
        d2.fqdn = g.server.FullyQualifiedDomainName.getD "" ∧ d2.id = d.id) := by
  rcases hp : ParseAzureResourceID d.id with e | id
  · rw [hp] at hid
    simp [Except.isOk, Except.toBool] at hid
  · refine ⟨?_, ?_, ?_⟩
    · intro he hn
      unfold resourceArmMySqlServerRead
      rw [hp]
      simp [he, hn]
    · intro he hn
      unfold resourceArmMySqlServerRead
      rw [hp]
      simp [he, hn]
    · intro p he hsp
      unfold resourceArmMySqlServerRead
      rw [hp]
      simp only [he, hsp, flattenMySQLStorageProfile, Bool.false_eq_true, if_false]
      exact ⟨_, rfl, rfl, rfl⟩

/-- Witness for C6 covering the not-found and the success cases at concrete
traces. -/
theorem read_notfound_is_absent_witness :
    (resourceArmMySqlServerRead { err := true, notFound := true, server := serverZero } dExample =
      LifecycleOutcome.ok { dExample with id := "" }) ∧
    (∃ d2, resourceArmMySqlServerRead { err := false, notFound := false, server := serverExample } dExample =
      LifecycleOutcome.ok d2 ∧
        d2.fqdn = (({ err := false, notFound := false, server := serverExample } : GetResult)).server.FullyQualifiedDomainName.getD "" ∧
        d2.id = dExample.id) :=
  ⟨(read_notfound_is_absent { err := true, notFound := true, server := serverZero } dExample
      (by decide)).1 rfl rfl,
   (read_notfound_is_absent { err := false, notFound := false, server := serverExample } dExample
      (by decide)).2.2
     { BackupRetentionDays := some 7, GeoRedundantBackup := "Enabled",
       StorageMB := some 5120, StorageAutogrow := "Enabled" } rfl rfl⟩

/-- C9: the decode direction is not total — flattenMySQLStorageProfile
dereferences the geo-redundant-backup and auto-grow enum fields of a nil
wire storage profile, so Read of a success response whose storage profile
is absent panics instead of omitting the group, while the storage_mb and
backup_retention_days sub-fields alone are guarded (absent sub-fields are
omitted, not errors). -/
theorem flatten_nil_profile_panics :
    flattenMySQLStorageProfile none = none ∧
    (∀ g d, (ParseAzureResourceID d.id).isOk = true → g.err = false →
      g.server.StorageProfile = none →
      resourceArmMySqlServerRead g d = LifecycleOutcome.panicked) ∧
    (∀ p, p.StorageMB = none → p.BackupRetentionDays = none →
      flattenMySQLStorageProfile (some p) =
        some [{ storage_mb := none, backup_retention_days := none,
                geo_redundant_backup := p.GeoRedundantBackup,
                auto_grow := p.StorageAutogrow }]) := by
  refine ⟨rfl, ?_, ?_⟩
  · intro g d hid he hsp
    rcases hp : ParseAzureResourceID d.id with e | id
    · rw [hp] at hid
      simp [Except.isOk, Except.toBool] at hid
    · unfold resourceArmMySqlServerRead
      rw [hp]
      simp [he, hsp, flattenMySQLStorageProfile]
  · intro p h1 h2
    simp [flattenMySQLStorageProfile, h1, h2]

/-- Witness for C9 at a concrete success response with an absent storage
profile. -/
theorem flatten_nil_profile_panics_witness :
    (ParseAzureResourceID dExample.id).isOk = true ∧
    resourceArmMySqlServerRead { err := false, notFound := false, server := serverZero } dExample =
      LifecycleOutcome.panicked :=
  ⟨by decide,
   flatten_nil_profile_panics.2.1 { err := false, notFound := false, server := serverZero }
     dExample (by decide) rfl rfl⟩

/-- C10: the public_network_access_enabled boolean is decoded
asymmetrically — Read sets it to true for every wire value other than the
exact Disabled constant, including the absent (empty) value, while the
encode direction in Create maps true to Enabled and false to Disabled. -/
theorem public_network_access_asymmetry :
    (∀ g d d2, g.err = false →
      resourceArmMySqlServerRead g d = LifecycleOutcome.ok d2 →
      d2.public_network_access_enabled =
        !(g.server.PublicNetworkAccess == publicNetworkAccessEnumDisabled)) ∧
    (∀ g d d2, g.err = false → g.server.PublicNetworkAccess = "" →
      resourceArmMySqlServerRead g d = LifecycleOutcome.ok d2 →
      d2.public_network_access_enabled = true) ∧
    (∀ si nw r d p, (resourceArmMySqlServerCreate si nw r d).submitted = some p →
      p.Properties.PublicNetworkAccess =
        (if d.public_network_access_enabled then publicNetworkAccessEnumEnabled
         else publicNetworkAccessEnumDisabled)) := by
  have part1 : ∀ g d d2, g.err = false →
      resourceArmMySqlServerRead g d = LifecycleOutcome.ok d2 →
      d2.public_network_access_enabled =
        !(g.server.PublicNetworkAccess == publicNetworkAccessEnumDisabled) := by
    intro g d d2 he hok
    unfold resourceArmMySqlServerRead at hok
    rcases hp : ParseAzureResourceID d.id with e | id
    · rw [hp] at hok
      cases hok
    · rw [hp] at hok
      rw [he] at hok
      simp only [Bool.false_eq_true, if_false] at hok
      rcases hsp : flattenMySQLStorageProfile g.server.StorageProfile with _ | profile
      · rw [hsp] at hok
        cases hok
      · rw [hsp] at hok
        cases hok
        rfl
  refine ⟨part1, ?_, ?_⟩
  · intro g d d2 he hpn hok
    rw [part1 g d d2 he hok, hpn]
    rfl
  · intro si nw r d p hsub
    cases hpub : d.public_network_access_enabled
    all_goals simp only [resourceArmMySqlServerCreate, hpub, Bool.false_eq_true,
      Bool.true_eq_false, if_false, if_true, Bool.false_eq_true] at hsub
    all_goals repeat' split at hsub
    all_goals simp at hsub
    all_goals subst hsub
    all_goals simp [hpub]

/-- Witness for C10 at a concrete success response with an absent (empty)
public-network-access wire value, and a concrete submitted payload. -/
theorem public_network_access_asymmetry_witness :
    (∃ d2, resourceArmMySqlServerRead
        { err := false, notFound := false,
          server := { serverZero with StorageProfile := serverExample.StorageProfile } } dExample =
        LifecycleOutcome.ok d2 ∧ d2.public_network_access_enabled = true) ∧
    (∀ p, (resourceArmMySqlServerCreate false false
        { firstGet := { err := false, notFound := false, server := serverZero }
          createErr := true, waitErr := false
          rereadGet := { err := false, notFound := false, server := serverZero }
          readGet := { err := false, notFound := false, server := serverZero } }
        dExample).submitted = some p →
      p.Properties.PublicNetworkAccess =
        (if dExample.public_network_access_enabled then publicNetworkAccessEnumEnabled
         else publicNetworkAccessEnumDisabled)) :=
  ⟨⟨{ dExample with
        name := "", resource_group_name := "group1", administrator_login := ""
        version := "", ssl_enforcement := ""
        public_network_access_enabled := true
        storage_profile := [{ storage_mb := 5120, backup_retention_days := 7,
                              geo_redundant_backup := "Enabled", auto_grow := "Enabled" }]
        fqdn := "", tags := [] },
     by decide,
     public_network_access_asymmetry.2.1
       { err := false, notFound := false,
         server := { serverZero with StorageProfile := serverExample.StorageProfile } }
       dExample _ rfl rfl (by decide)⟩,
   fun p => public_network_access_asymmetry.2.2 false false _ dExample p⟩

/-- C5: with import checking enabled on a new resource, Create performs the
pre-create Read first — an existing (non-nil, non-empty) remote ID fails
Create with the already-exists error and no create submission, and a Read
failure that is not a not-found response fails Create with the distinct
checking error, likewise without submitting a create. -/
theorem create_import_check (r : CreateRemote) (d : ResourceData) :
    (∀ i, r.firstGet.err = false → r.firstGet.server.ID = some i → i ≠ "" →
      resourceArmMySqlServerCreate true true r d =
        { outcome := LifecycleOutcome.err (MySqlErr.importAsExists i) d, submitted := none }) ∧
    (r.firstGet.err = true → r.firstGet.notFound = false →
      resourceArmMySqlServerCreate true true r d =
        { outcome := LifecycleOutcome.err MySqlErr.checkingExisting d, submitted := none }) ∧
    (∀ i, MySqlErr.importAsExists i ≠ MySqlErr.checkingExisting) := by
  refine ⟨?_, ?_, ?_⟩
  · intro i he hID hne
    have hne2 : (i == "") = false := by
      cases H : i == ""
      · rfl
      · exact absurd (eq_of_beq H) hne
    unfold resourceArmMySqlServerCreate
    simp [he, hID, hne2]
  · intro he hn
    unfold resourceArmMySqlServerCreate
    simp [he, hn]
  · intro i h
    cases h

/-- Witness for C5 at a concrete trace whose import-check Read resolves an
existing remote ID. -/
theorem create_import_check_witness :
    resourceArmMySqlServerCreate true true
        { firstGet := { err := false, notFound := false, server := serverExample }
          createErr := false, waitErr := false
          rereadGet := { err := false, notFound := false, server := serverZero }
          readGet := { err := false, notFound := false, server := serverZero } }
        dExample =
      { outcome := LifecycleOutcome.err (MySqlErr.importAsExists dExample.id) dExample
        submitted := none } :=
  create_import_check _ dExample |>.1 dExample.id rfl rfl (by decide)

/-- Helper: every outcome of Read is a panic, one of its two error returns
with the store untouched, the not-found return with the identity cleared,
or a success whose stored identity is unchanged. -/
theorem read_outcome_cases (g : GetResult) (d : ResourceData) :
    resourceArmMySqlServerRead g d = LifecycleOutcome.panicked ∨
    (∃ ep, resourceArmMySqlServerRead g d = LifecycleOutcome.err (MySqlErr.parseId ep) d) ∨
    resourceArmMySqlServerRead g d = LifecycleOutcome.err MySqlErr.readRequest d ∨
    resourceArmMySqlServerRead g d = LifecycleOutcome.ok { d with id := "" } ∨
    (∃ d2, resourceArmMySqlServerRead g d = LifecycleOutcome.ok d2 ∧ d2.id = d.id) := by
  unfold resourceArmMySqlServerRead
  rcases hp : ParseAzureResourceID d.id with e | id
  · exact Or.inr (Or.inl ⟨e, rfl⟩)
  · cases he : g.err
    · rcases hsp : flattenMySQLStorageProfile g.server.StorageProfile with _ | profile
      · simp only [hsp]
        exact Or.inl rfl
      · simp only [hsp]
        exact Or.inr (Or.inr (Or.inr (Or.inr ⟨_, rfl, rfl⟩)))
    · cases hn : g.notFound
      · exact Or.inr (Or.inr (Or.inl rfl))
      · exact Or.inr (Or.inr (Or.inr (Or.inl rfl)))

/-- C4: every Create execution failing before the final re-read succeeds —
import-check failure, already-exists conflict, SKU encode failure, create
submission failure, polling failure, re-read failure, or a nil re-read
ID — leaves the attribute store exactly as it was, identity included; and
whenever Create finishes with a stored identity that is neither the
original one nor the cleared empty string, that identity is precisely the
non-nil ID returned by the re-read. -/
theorem create_failure_records_no_identity (si nw : Bool) (r : CreateRemote)
    (d : ResourceData) :
    (∀ e d2, (resourceArmMySqlServerCreate si nw r d).outcome = LifecycleOutcome.err e d2 →
      (e = MySqlErr.checkingExisting ∨ (∃ i, e = MySqlErr.importAsExists i) ∨
       (∃ m, e = MySqlErr.skuExpand m) ∨ e = MySqlErr.creating ∨ e = MySqlErr.waiting ∨
       e = MySqlErr.retrieving ∨ e = MySqlErr.cannotReadID) →
      d2 = d) ∧
    (∀ d2, ((resourceArmMySqlServerCreate si nw r d).outcome = LifecycleOutcome.ok d2 ∨
        (∃ e, (resourceArmMySqlServerCreate si nw r d).outcome = LifecycleOutcome.err e d2)) →
      d2.id = d.id ∨ d2.id = "" ∨ r.rereadGet.server.ID = some d2.id) := by
  have main : ∀ o, o = (resourceArmMySqlServerCreate si nw r d).outcome →
      ((∀ e d2, o = LifecycleOutcome.err e d2 →
        (e = MySqlErr.checkingExisting ∨ (∃ i, e = MySqlErr.importAsExists i) ∨
         (∃ m, e = MySqlErr.skuExpand m) ∨ e = MySqlErr.creating ∨ e = MySqlErr.waiting ∨
         e = MySqlErr.retrieving ∨ e = MySqlErr.cannotReadID) →
        d2 = d) ∧
      (∀ d2, (o = LifecycleOutcome.ok d2 ∨ (∃ e, o = LifecycleOutcome.err e d2)) →
        d2.id = d.id ∨ d2.id = "" ∨ r.rereadGet.server.ID = some d2.id)) := by
    intro o ho
    simp only [resourceArmMySqlServerCreate] at ho
    repeat' split at ho
    all_goals subst ho
    all_goals
      first
      | (constructor
         · intro e d2 h hkind
           cases h <;> rfl
         · intro d2 h
           rcases h with h | ⟨e, h⟩
           · cases h
           · cases h <;> exact Or.inl rfl)
      | (rename String => i
         rename r.rereadGet.server.ID = some i => hID
         constructor
         · intro e d2 h hkind
           rcases read_outcome_cases r.readGet { d with id := i }
             with hr | ⟨ep, hr⟩ | hr | hr | ⟨d3, hr, hd3⟩ <;> rw [hr] at h
           · cases h
           · cases h
             rcases hkind with hk | ⟨j, hk⟩ | ⟨m, hk⟩ | hk | hk | hk | hk <;> cases hk
           · cases h
             rcases hkind with hk | ⟨j, hk⟩ | ⟨m, hk⟩ | hk | hk | hk | hk <;> cases hk
           · cases h
           · cases h
         · intro d2 h
           rcases read_outcome_cases r.readGet { d with id := i }
             with hr | ⟨ep, hr⟩ | hr | hr | ⟨d3, hr, hd3⟩
           · rcases h with h | ⟨e, h⟩ <;> rw [hr] at h <;> cases h
           · rcases h with h | ⟨e, h⟩ <;> rw [hr] at h <;> cases h
             exact Or.inr (Or.inr hID)
           · rcases h with h | ⟨e, h⟩ <;> rw [hr] at h <;> cases h
             exact Or.inr (Or.inr hID)
           · rcases h with h | ⟨e, h⟩ <;> rw [hr] at h <;> cases h
             exact Or.inr (Or.inl rfl)
           · rcases h with h | ⟨e, h⟩ <;> rw [hr] at h <;> cases h
             exact Or.inr (Or.inr (by rw [hd3]; exact hID)))
  exact main (resourceArmMySqlServerCreate si nw r d).outcome rfl

/-- Witness for C4 at a concrete trace whose create submission fails. -/
theorem create_failure_records_no_identity_witness :
    ((resourceArmMySqlServerCreate false false
        { firstGet := { err := false, notFound := false, server := serverZero }
          createErr := true, waitErr := false
          rereadGet := { err := false, notFound := false, server := serverZero }
          readGet := { err := false, notFound := false, server := serverZero } }
        dExample).outcome = LifecycleOutcome.err MySqlErr.creating dExample) ∧
    dExample = dExample :=
  ⟨by decide,
   (create_failure_records_no_identity false false
      { firstGet := { err := false, notFound := false, server := serverZero }
        createErr := true, waitErr := false
        rereadGet := { err := false, notFound := false, server := serverZero }
        readGet := { err := false, notFound := false, server := serverZero } }
      dExample).1 MySqlErr.creating dExample (by decide)
      (Or.inr (Or.inr (Or.inr (Or.inl rfl))))⟩
